import Mathlib

/-!
Verification of the goal lifecycle and reservation-invariant engine of the
billax backend (`app/models/goal.py`, `app/facade/goal_facade.py`,
`app/repositories/goal_repository.py`, `app/repositories/base_repository.py`).

Modelling conventions:
* Money amounts (`Numeric` columns, Python floats) are embedded as `ℚ`;
  the claims under scrutiny concern exact sums and comparisons.
* Dates are embedded as `Int` day numbers; "today" is threaded explicitly to
  the operations that call `date.today()`.  A payload's deadline string is
  abstracted to either `none`/empty, a malformed string, or a string parsing
  to a day number (`DeadlineInput`).
* `created_at`/`updated_at` wall-clock timestamps and the `linked_account`
  relationship are omitted from the `Goal` record: they are clock/ORM
  effects no claim refers to.
* Python exceptions become the `Except GoalError` monad; every distinct
  exception message template of the source becomes one constructor of
  `GoalMsg`, carrying the template's numeric arguments so that statements
  about message contents stay exact.
* Dynamically typed payload values for `linked_account_id`/`linked_amount`
  (which the source coerces with `int(...)`/`float(...)`) are embedded as
  `JVal` (null, number, or string).
-/

/-! ### Data model, entity methods, repository and facade operations -/

/-- A dynamically typed JSON payload value, as the goal facade receives it
for the `linked_account_id` / `linked_amount` keys. -/
inductive JVal where
  | jnull : JVal
  | jnum (q : ℚ) : JVal
  | jstr (s : String) : JVal
deriving DecidableEq, Repr

/-- A payload's `deadline` value: absent/null/empty, a string `strptime`
rejects, or a well-formed `YYYY-MM-DD` string abstracted to its day
number. -/
inductive DeadlineInput where
  | dnone : DeadlineInput
  | dmalformed : DeadlineInput
  | ddate (d : Int) : DeadlineInput
deriving DecidableEq, Repr

/-- The exception message templates raised by the goal engine
(`goal_facade.py` / `goal_repository.py`), one constructor per template,
carrying the formatted-in arguments. -/
inductive GoalMsg where
  | userNotFound : GoalMsg
  | linkedAccountNotFound : GoalMsg
  | cannotReserve (available reserved : ℚ) : GoalMsg
  | titleRequired : GoalMsg
  | targetAmountPositive : GoalMsg
  | deadlinePast : GoalMsg
  | deadlineFormat : GoalMsg
  | invalidCategory : GoalMsg
  | invalidField (name : String) : GoalMsg
  | invalidStatus : GoalMsg
  | linkedAccountIdInt : GoalMsg
  | linkedAmountNumber : GoalMsg
  | goalNotFound (goal_id : Int) : GoalMsg
  | goalNoLinkedAccount : GoalMsg
  | invalidProgressType : GoalMsg
  | amountPositive : GoalMsg
  | daysRange : GoalMsg
  | errorCreatingGoal (inner : GoalMsg) : GoalMsg
  | errorUpdatingGoal (inner : GoalMsg) : GoalMsg
  | errorDeletingGoal (inner : GoalMsg) : GoalMsg
  | errorUpdatingProgress (inner : GoalMsg) : GoalMsg
deriving DecidableEq, Repr

/-- The goal exception taxonomy of `app/utils/goal_exceptions.py`:
`GoalValidationError` and `GoalNotFoundError` (`GoalPermissionError` is
never raised by this engine). -/
inductive GoalError where
  | validation (m : GoalMsg) : GoalError
  | notFound (m : GoalMsg) : GoalError
deriving DecidableEq, Repr

/-- The `str(e)` view: the message carried by an exception, used where the facade
wraps a caught exception into a new message. -/
def GoalError.msg : GoalError → GoalMsg
  | .validation m => m
  | .notFound m => m

/-- The `Goal` record (`app/models/goal.py`), timestamps omitted. -/
structure Goal where
  id : Int
  user_id : Int
  title : String
  description : Option String
  target_amount : ℚ
  current_amount : ℚ
  deadline : Option Int
  category : Option String
  status : String
  linked_account_id : Option Int
  linked_amount : Option ℚ
deriving DecidableEq, Repr

/-- The slice of the `Account` record (`app/models/account.py`) the goal
engine reads. -/
structure Account where
  id : Int
  user_id : Int
  available_balance : Option ℚ
deriving DecidableEq, Repr

/-- The persisted state the goal engine touches: registered user ids,
accounts, goals, and the autoincrement counter for goal ids. -/
structure DB where
  users : List Int
  accounts : List Account
  goals : List Goal
  nextGoalId : Int
deriving DecidableEq, Repr

/-- Model of `Goal.calculate_progress` (`goal.py` lines 64–72): total is
`current_amount` plus `linked_amount` when the latter is truthy; returns 0
when `target_amount == 0`, else `min(total / target * 100, 100)`. -/
def Goal.calculate_progress (g : Goal) : ℚ :=
  let total := g.current_amount +
    (match g.linked_amount with
     | none => 0
     | some la => if la = 0 then 0 else la)
  if g.target_amount = 0 then 0
  else min (total / g.target_amount * 100) 100

/-- Model of `Goal.update_progress` (`goal.py` lines 81–88): add `amount` to
`linked_amount` for `linked`, else to `current_amount`; then mark the goal
`completed` when `calculate_progress() >= 100`. -/
def Goal.update_progress (g : Goal) (amount : ℚ) (progress_type : String) : Goal :=
  let g1 :=
    if progress_type = "linked" then
      { g with linked_amount := some ((g.linked_amount.getD 0) + amount) }
    else
      { g with current_amount := g.current_amount + amount }
  if 100 ≤ g1.calculate_progress then { g1 with status := "completed" } else g1

/-- The quantity `current_amount + (linked_amount or 0)`: the total progress the spec
refers to. -/
def Goal.total_progress (g : Goal) : ℚ :=
  g.current_amount + g.linked_amount.getD 0

/-- Model of `GoalRepository.get_goal_by_id` (`goal_repository.py` lines 63–65):
`find_one_by(id=goal_id, user_id=user_id)`, the first goal matching both
the id and the requesting user. -/
def GoalRepository.get_goal_by_id (db : DB) (goal_id user_id : Int) : Option Goal :=
  db.goals.find? (fun g => g.id == goal_id && g.user_id == user_id)

/-- Model of `AccountRepository.get_by_id_and_user_id` (`account_repository.py`):
the account with the given id owned by the given user, if any. -/
def AccountRepository.get_by_id_and_user_id (db : DB) (account_id user_id : Int) :
    Option Account :=
  db.accounts.find? (fun a => a.id == account_id && a.user_id == user_id)

/-- Model of the `BaseRepository.find_by(user_id=..., linked_account_id=...)` call on goals
(`goal_facade.py` line 31): SQL equality, so a goal with a NULL
`linked_account_id` never matches. -/
def GoalRepository.find_by_linked_account (db : DB) (user_id linked_account_id : Int) :
    List Goal :=
  db.goals.filter
    (fun g => g.user_id == user_id && g.linked_account_id == some linked_account_id)

/-- The `total_reserved` sum of `GoalFacade._validate_linked_amount_total`
(`goal_facade.py` lines 32–36): `float(g.linked_amount or 0)` over the goals
of `find_by`, keeping `g` when `exclude_goal_id is None or
g.id != exclude_goal_id`. -/
def GoalFacade.total_reserved (db : DB) (user_id linked_account_id : Int)
    (exclude_goal_id : Option Int) : ℚ :=
  (((GoalRepository.find_by_linked_account db user_id linked_account_id).filter
      (fun g =>
        match exclude_goal_id with
        | none => true
        | some e => g.id != e)).map
    (fun g => g.linked_amount.getD 0)).sum

/-- Model of `GoalFacade._validate_linked_amount_total` (`goal_facade.py` lines
23–45), the reservation-ledger check. -/
def GoalFacade.validate_linked_amount_total (db : DB) (user_id linked_account_id : Int)
    (linked_amount : ℚ) (exclude_goal_id : Option Int) : Except GoalError Unit :=
  match AccountRepository.get_by_id_and_user_id db linked_account_id user_id with
  | none => .error (.validation .linkedAccountNotFound)
  | some account =>
    let total_reserved := GoalFacade.total_reserved db user_id linked_account_id exclude_goal_id
    let available_balance := account.available_balance.getD 0
    let total_needed := total_reserved + linked_amount
    if available_balance < total_needed then
      .error (.validation (.cannotReserve available_balance total_reserved))
    else .ok ()

/-- Accumulate a decimal digit string; `none` on a non-digit. -/
def decDigitsAux (acc : Nat) : List Char → Option Nat
  | [] => some acc
  | c :: cs =>
    if c.isDigit then decDigitsAux (acc * 10 + (c.toNat - '0'.toNat)) cs else none

/-- Python `int(str)`: optional sign followed by decimal digits. -/
def parseInt? (s : String) : Option Int :=
  match s.data with
  | '-' :: cs => if cs.isEmpty then none else (decDigitsAux 0 cs).map (fun n => -(n : Int))
  | '+' :: cs => if cs.isEmpty then none else (decDigitsAux 0 cs).map (fun n => (n : Int))
  | cs => if cs.isEmpty then none else (decDigitsAux 0 cs).map (fun n => (n : Int))

/-- Python `float(str)` restricted to plain decimal notation: optional sign,
digits with at most one decimal point. -/
def parseDecimal? (s : String) : Option ℚ :=
  let sgn : Bool × List Char :=
    match s.data with
    | '-' :: cs => (true, cs)
    | '+' :: cs => (false, cs)
    | cs => (false, cs)
  let cs := sgn.2
  let ip := cs.takeWhile (fun c => c ≠ '.')
  let rest := cs.dropWhile (fun c => c ≠ '.')
  let mag : Option ℚ :=
    match rest with
    | [] =>
      if ip.isEmpty then none else (decDigitsAux 0 ip).map (fun n => (n : ℚ))
    | _ :: fp =>
      if ip.isEmpty && fp.isEmpty then none
      else
        match decDigitsAux 0 ip, decDigitsAux 0 fp with
        | some n, some f => some ((n : ℚ) + (f : ℚ) / (10 : ℚ) ^ fp.length)
        | _, _ => none
  mag.map (fun q => if sgn.1 then -q else q)

/-- Python `int(...)` applied to a number: truncation toward zero. -/
def ratTruncToInt (q : ℚ) : Int := q.num.tdiv q.den

/-- The `linked_account_id` branch of
`GoalFacade._validate_and_convert_linked_fields` (`goal_facade.py` lines
68–74): `None`/`''` normalise to unset, otherwise `int(...)`, raising
`ValidationError` when the coercion fails. -/
def GoalFacade.to_linked_account_id : JVal → Except GoalError (Option Int)
  | .jnull => .ok none
  | .jnum q => .ok (some (ratTruncToInt q))
  | .jstr s =>
    if s = "" then .ok none
    else
      match parseInt? s with
      | some n => .ok (some n)
      | none => .error (.validation .linkedAccountIdInt)

/-- The `linked_amount` branch of the same function (lines 76–82):
`None`/`''` normalise to unset, otherwise `float(...)`. -/
def GoalFacade.to_linked_amount : JVal → Except GoalError (Option ℚ)
  | .jnull => .ok none
  | .jnum q => .ok (some q)
  | .jstr s =>
    if s = "" then .ok none
    else
      match parseDecimal? s with
      | some q => .ok (some q)
      | none => .error (.validation .linkedAmountNumber)

/-- Model of `GoalFacade._validate_and_convert_linked_fields` (lines 66–84). -/
def GoalFacade.validate_and_convert_linked_fields (linked_account_id linked_amount : JVal) :
    Except GoalError (Option Int × Option ℚ) :=
  match GoalFacade.to_linked_account_id linked_account_id with
  | .error e => .error e
  | .ok laid =>
    match GoalFacade.to_linked_amount linked_amount with
    | .error e => .error e
    | .ok lam => .ok (laid, lam)

/-- Model of `GoalFacade._validate_and_parse_deadline` (lines 53–64): empty/absent
gives no deadline; a malformed string raises; a parsed date strictly before
today raises. -/
def GoalFacade.validate_and_parse_deadline (today : Int) :
    DeadlineInput → Except GoalError (Option Int)
  | .dnone => .ok none
  | .dmalformed => .error (.validation .deadlineFormat)
  | .ddate d => if d < today then .error (.validation .deadlinePast) else .ok (some d)

/-- Model of `GoalFacade.VALID_CATEGORIES`. -/
def GoalFacade.VALID_CATEGORIES : List String :=
  ["savings", "investment", "debt", "emergency", "vacation", "education", "bills", "other"]

/-- Model of `GoalFacade.VALID_STATUSES`. -/
def GoalFacade.VALID_STATUSES : List String := ["active", "completed", "cancelled"]

/-- Model of `GoalFacade.VALID_FIELDS`, the mutable fields accepted by update. -/
def GoalFacade.VALID_FIELDS : List String :=
  ["title", "description", "target_amount", "deadline", "category", "status",
   "linked_account_id", "linked_amount"]

/-- The creation payload (`kwargs` of `GoalFacade.create_goal`).  Fields the
facade reads with `kwargs.get` are `Option`s (absent ≡ `none`); the two
linked fields arrive as dynamic `JVal`s (absent ≡ `jnull`, matching
`kwargs.get`'s `None` default).  `status` and `current_amount` may be
supplied by the caller but `create_goal` never reads them. -/
structure CreatePayload where
  title : Option String
  target_amount : Option ℚ
  description : Option String
  deadline : DeadlineInput
  category : Option String
  linked_account_id : JVal
  linked_amount : JVal
  status : Option String
  current_amount : Option ℚ
deriving DecidableEq, Repr

/-- The update payload (`updates` of `GoalFacade.update_goal`): `none`
means the key is absent from the dict; `extra` lists any further keys in
dict order. -/
structure UpdatePayload where
  title : Option String
  description : Option String
  target_amount : Option ℚ
  deadline : Option DeadlineInput
  category : Option String
  status : Option String
  linked_account_id : Option JVal
  linked_amount : Option JVal
  extra : List String
deriving DecidableEq, Repr

/-- The `updates` dict as it reaches `GoalRepository.update_goal` after the
facade's in-place conversions: deadline replaced by its parsed value, the
linked fields replaced by their coerced values (both present as soon as
either key was present). -/
structure ConvertedUpdates where
  title : Option String
  description : Option String
  target_amount : Option ℚ
  deadline : Option (Option Int)
  category : Option String
  status : Option String
  linked_account_id : Option (Option Int)
  linked_amount : Option (Option ℚ)
deriving DecidableEq, Repr

/-- The `setattr` loop of `BaseRepository.update` (`base_repository.py`
lines 104–119) applied to a goal: every key present in the dict overwrites
the attribute. -/
def Goal.applyUpdates (g : Goal) (c : ConvertedUpdates) : Goal :=
  { g with
    title := c.title.getD g.title
    description := match c.description with | some d => some d | none => g.description
    target_amount := c.target_amount.getD g.target_amount
    deadline := c.deadline.getD g.deadline
    category := match c.category with | some cat => some cat | none => g.category
    status := c.status.getD g.status
    linked_account_id := c.linked_account_id.getD g.linked_account_id
    linked_amount := c.linked_amount.getD g.linked_amount }

/-- Commit a mutated goal: the session holds one row per goal id, so the
commit replaces the row with that id. -/
def DB.replaceGoal (db : DB) (g : Goal) : DB :=
  { db with goals := db.goals.map (fun h => if h.id == g.id then g else h) }

/-- Model of `GoalRepository.update_goal` (`goal_repository.py` lines 67–76):
look up the goal for the user, raise `GoalNotFoundError` when absent, else
apply the updates and commit. -/
def GoalRepository.update_goal (db : DB) (goal_id user_id : Int) (c : ConvertedUpdates) :
    Except GoalError (DB × Goal) :=
  match GoalRepository.get_goal_by_id db goal_id user_id with
  | none => .error (.notFound (.goalNotFound goal_id))
  | some goal =>
    let g := goal.applyUpdates c
    .ok (db.replaceGoal g, g)

/-- Model of `GoalRepository.delete_goal` (lines 78–87): look up the goal for the
user, raise `GoalNotFoundError` when absent, else delete the row. -/
def GoalRepository.delete_goal (db : DB) (goal_id user_id : Int) :
    Except GoalError (DB × Bool) :=
  match GoalRepository.get_goal_by_id db goal_id user_id with
  | none => .error (.notFound (.goalNotFound goal_id))
  | some goal =>
    .ok ({ db with goals := db.goals.filter (fun h => !(h.id == goal.id)) }, true)

/-- Model of `GoalRepository.update_goal_progress` (lines 89–100): look up the goal
for the user, raise `GoalNotFoundError` when absent, else run the entity's
`update_progress` and commit. -/
def GoalRepository.update_goal_progress (db : DB) (goal_id user_id : Int)
    (amount : ℚ) (progress_type : String) : Except GoalError (DB × Goal) :=
  match GoalRepository.get_goal_by_id db goal_id user_id with
  | none => .error (.notFound (.goalNotFound goal_id))
  | some goal =>
    let g := goal.update_progress amount progress_type
    .ok (db.replaceGoal g, g)

/-- Truthiness of the deadline query filter: `active` goals of the user
with a deadline in `[today, today + days]` (a NULL deadline never
matches). -/
def Goal.near_deadline (today user_id days : Int) (g : Goal) : Bool :=
  g.user_id == user_id && g.status == "active" &&
    (match g.deadline with
     | some d => today ≤ d && d ≤ today + days
     | none => false)

/-- The `ORDER BY deadline ASC` comparison on goals. -/
def deadlineLE (a b : Goal) : Prop := a.deadline.getD 0 ≤ b.deadline.getD 0

instance : DecidableRel deadlineLE := fun _ _ => Int.decLe _ _

instance : IsTotal Goal deadlineLE := ⟨fun _ _ => Int.le_total _ _⟩

instance : IsTrans Goal deadlineLE := ⟨fun _ _ _ => Int.le_trans⟩

/-- Model of `GoalRepository.get_goals_near_deadline` (lines 161–173): filter by
user, `active` status and deadline between today and `today + days`, in
ascending deadline order. -/
def GoalRepository.get_goals_near_deadline (db : DB) (today user_id days : Int) :
    List Goal :=
  List.insertionSort deadlineLE (db.goals.filter (Goal.near_deadline today user_id days))

/-- Model of `GoalFacade.create_goal` (`goal_facade.py` lines 86–134).  Returns the
new state and the created goal. -/
def GoalFacade.create_goal (db : DB) (today user_id : Int) (p : CreatePayload) :
    Except GoalError (DB × Goal) :=
  if db.users.contains user_id then
    let title := (p.title.getD "").trim
    if title = "" then .error (.validation .titleRequired)
    else
      match p.target_amount with
      | none => .error (.validation .targetAmountPositive)
      | some target =>
        if target ≤ 0 then .error (.validation .targetAmountPositive)
        else
          match GoalFacade.validate_and_parse_deadline today p.deadline with
          | .error e => .error e
          | .ok deadline_date =>
            if (match p.category with
                | some c => c != "" && !(GoalFacade.VALID_CATEGORIES.contains c)
                | none => false) then .error (.validation .invalidCategory)
            else
              match GoalFacade.validate_and_convert_linked_fields
                  p.linked_account_id p.linked_amount with
              | .error e => .error e
              | .ok (laid, lam) =>
                match
                  (match laid, lam with
                   | some a, some m =>
                     if a ≠ 0 then GoalFacade.validate_linked_amount_total db user_id a m none
                     else .ok ()
                   | _, _ => .ok ()) with
                | .error e => .error e
                | .ok () =>
                  let descr := (p.description.getD "").trim
                  let goal : Goal :=
                    { id := db.nextGoalId
                      user_id := user_id
                      title := title
                      description := if descr = "" then none else some descr
                      target_amount := target
                      current_amount := 0
                      deadline := deadline_date
                      category := p.category
                      status := "active"
                      linked_account_id := laid
                      linked_amount := lam }
                  .ok ({ db with goals := db.goals ++ [goal],
                                 nextGoalId := db.nextGoalId + 1 }, goal)
  else .error (.validation .userNotFound)

/-- The `try/except` of `GoalFacade.update_goal` (lines 188–192): any
repository failure resurfaces as
`GoalValidationError(f"Error updating goal: {str(e)}")`. -/
def GoalFacade.commit_update (db : DB) (goal_id user_id : Int) (c : ConvertedUpdates) :
    Except GoalError (DB × Goal) :=
  match GoalRepository.update_goal db goal_id user_id c with
  | .error e => .error (.validation (.errorUpdatingGoal e.msg))
  | .ok r => .ok r

/-- The `'deadline' in updates` branch of `GoalFacade.update_goal` (lines
171–173): a present deadline is re-parsed in place, an absent key is left
untouched. -/
def GoalFacade.parse_deadline_update (today : Int) :
    Option DeadlineInput → Except GoalError (Option (Option Int))
  | some d =>
    match GoalFacade.validate_and_parse_deadline today d with
    | .error e => .error e
    | .ok v => .ok (some v)
  | none => .ok none

/-- The linked-fields branch of `GoalFacade.update_goal` (lines 176–186):
when either linked key is present, coerce both (`.get` defaulting the
absent one to `None`), write both back into the dict, and run the
reservation check when the coerced account id is truthy and the coerced
amount is not `None`. -/
def GoalFacade.update_linked_stage (db : DB) (goal_id user_id : Int) (u : UpdatePayload) :
    Except GoalError (Option (Option Int) × Option (Option ℚ)) :=
  if u.linked_account_id.isSome || u.linked_amount.isSome then
    match GoalFacade.validate_and_convert_linked_fields
        (u.linked_account_id.getD .jnull) (u.linked_amount.getD .jnull) with
    | .error e => .error e
    | .ok (laid, lam) =>
      match (match laid, lam with
             | some a, some m =>
               if a ≠ 0 then
                 GoalFacade.validate_linked_amount_total db user_id a m (some goal_id)
               else .ok ()
             | _, _ => .ok ()) with
      | .error e => .error e
      | .ok () => .ok (some laid, some lam)
  else .ok (none, none)

/-- Model of `GoalFacade.update_goal` (`goal_facade.py` lines 151–192). -/
def GoalFacade.update_goal (db : DB) (today goal_id user_id : Int) (u : UpdatePayload) :
    Except GoalError (DB × Goal) :=
  if db.users.contains user_id then
    match u.extra.find? (fun f => !(GoalFacade.VALID_FIELDS.contains f)) with
    | some f => .error (.validation (.invalidField f))
    | none =>
      if (match u.status with
          | some s => !(GoalFacade.VALID_STATUSES.contains s)
          | none => false) then .error (.validation .invalidStatus)
      else if (match u.target_amount with
          | some t => decide (t ≤ 0)
          | none => false) then .error (.validation .targetAmountPositive)
      else
        match GoalFacade.parse_deadline_update today u.deadline with
        | .error e => .error e
        | .ok dres =>
          match GoalFacade.update_linked_stage db goal_id user_id u with
          | .error e => .error e
          | .ok (claid, clam) =>
            GoalFacade.commit_update db goal_id user_id
              { title := u.title, description := u.description,
                target_amount := u.target_amount, deadline := dres,
                category := u.category, status := u.status,
                linked_account_id := claid, linked_amount := clam }
  else .error (.validation .userNotFound)

/-- Model of `GoalFacade.get_goal_by_id` (lines 143–149). -/
def GoalFacade.get_goal_by_id (db : DB) (goal_id user_id : Int) : Except GoalError Goal :=
  if db.users.contains user_id then
    match GoalRepository.get_goal_by_id db goal_id user_id with
    | none => .error (.notFound (.goalNotFound goal_id))
    | some g => .ok g
  else .error (.validation .userNotFound)

/-- Model of `GoalFacade.delete_goal` (lines 194–200): the repository's
`GoalNotFoundError` is caught by the bare `except` and resurfaces as
`GoalValidationError(f"Error deleting goal: {str(e)}")`. -/
def GoalFacade.delete_goal (db : DB) (goal_id user_id : Int) :
    Except GoalError (DB × Bool) :=
  if db.users.contains user_id then
    match GoalRepository.delete_goal db goal_id user_id with
    | .error e => .error (.validation (.errorDeletingGoal e.msg))
    | .ok r => .ok r
  else .error (.validation .userNotFound)

/-- Model of `GoalFacade.update_goal_progress` (lines 202–228): user, amount and
progress-type validation, then for `linked` the goal lookup, the
linked-account truthiness check and the reservation-ledger re-validation
with `proposed = (goal.linked_amount or 0) + amount` excluding this goal,
then the repository commit. -/
def GoalFacade.update_goal_progress (db : DB) (goal_id user_id : Int) (amount : ℚ)
    (progress_type : String) : Except GoalError (DB × Goal) :=
  if db.users.contains user_id then
    if amount ≤ 0 then .error (.validation .amountPositive)
    else if !(["manual", "linked"].contains progress_type) then
      .error (.validation .invalidProgressType)
    else
      match (if progress_type = "linked" then
               match GoalRepository.get_goal_by_id db goal_id user_id with
               | none => .error (.validation (.goalNotFound goal_id))
               | some goal =>
                 match goal.linked_account_id with
                 | none => .error (.validation .goalNoLinkedAccount)
                 | some acct =>
                   if acct = 0 then .error (.validation .goalNoLinkedAccount)
                   else
                     GoalFacade.validate_linked_amount_total db user_id acct
                       ((goal.linked_amount.getD 0) + amount) (some goal_id)
             else .ok () : Except GoalError Unit) with
      | .error e => .error e
      | .ok () =>
        match GoalRepository.update_goal_progress db goal_id user_id amount progress_type with
        | .error e => .error (.validation (.errorUpdatingProgress e.msg))
        | .ok r => .ok r
  else .error (.validation .userNotFound)

/-- Model of `GoalFacade.get_goals_near_deadline` (lines 244–252). -/
def GoalFacade.get_goals_near_deadline (db : DB) (today user_id days : Int) :
    Except GoalError (List Goal) :=
  if db.users.contains user_id then
    if days < 1 ∨ days > 30 then .error (.validation .daysRange)
    else .ok (GoalRepository.get_goals_near_deadline db today user_id days)
  else .error (.validation .userNotFound)

/-- C1 scenario: one account with an available balance of 500. -/
def c1_account : Account := { id := 10, user_id := 1, available_balance := some 500 }

/-- C1 scenario: initial state, no goals yet. -/
def c1_db0 : DB := { users := [1], accounts := [c1_account], goals := [], nextGoalId := 1 }

/-- C1 scenario: creation payload reserving the full balance of 500. -/
def c1_payA : CreatePayload :=
  { title := some "A", target_amount := some 1000, description := none,
    deadline := .dnone, category := none, linked_account_id := .jnum 10,
    linked_amount := .jnum 500, status := none, current_amount := none }

/-- C1 scenario: a second payload reserving 100 more on the same account. -/
def c1_payB : CreatePayload := { c1_payA with title := some "B", linked_amount := .jnum 100 }

/-- C1 scenario: the goal created from `c1_payA`. -/
def c1_goalA : Goal :=
  { id := 1, user_id := 1, title := "A", description := none, target_amount := 1000,
    current_amount := 0, deadline := none, category := none, status := "active",
    linked_account_id := some 10, linked_amount := some 500 }

/-- C1 scenario: the state after creating goal A. -/
def c1_db1 : DB := { c1_db0 with goals := [c1_goalA], nextGoalId := 2 }

/-- C8 scenario state: four goals of user 1 — deadlines 5 and 3 (active),
4 (completed), and 40 (active, out of range for a 7-day query). -/
def c8_db : DB :=
  { users := [1], accounts := [],
    goals :=
      [{ id := 1, user_id := 1, title := "a", description := none, target_amount := 10,
         current_amount := 0, deadline := some 5, category := none, status := "active",
         linked_account_id := none, linked_amount := none },
       { id := 2, user_id := 1, title := "b", description := none, target_amount := 10,
         current_amount := 0, deadline := some 3, category := none, status := "active",
         linked_account_id := none, linked_amount := none },
       { id := 3, user_id := 1, title := "c", description := none, target_amount := 10,
         current_amount := 0, deadline := some 4, category := none, status := "completed",
         linked_account_id := none, linked_amount := none },
       { id := 4, user_id := 1, title := "d", description := none, target_amount := 10,
         current_amount := 0, deadline := some 40, category := none, status := "active",
         linked_account_id := none, linked_amount := none }],
    nextGoalId := 5 }

/-- Whether a result is a `GoalNotFoundError` (as opposed to a
`GoalValidationError` or a success). -/
def isNotFoundError {α : Type} : Except GoalError α → Bool
  | .error (.notFound _) => true
  | _ => false

/-- C6 state: user 1 exists, no goals at all. -/
def c6_db : DB := { users := [1], accounts := [], goals := [], nextGoalId := 1 }

/-- C6 state: goal 7 exists but belongs to user 2, not to requesting
user 1. -/
def c6_db2 : DB :=
  { users := [1, 2], accounts := [],
    goals := [{ id := 7, user_id := 2, title := "x", description := none,
                target_amount := 10, current_amount := 0, deadline := none,
                category := none, status := "active", linked_account_id := none,
                linked_amount := none }],
    nextGoalId := 8 }

/-- C6: an update payload touching nothing. -/
def c6_emptyU : UpdatePayload :=
  { title := none, description := none, target_amount := none, deadline := none,
    category := none, status := none, linked_account_id := none,
    linked_amount := none, extra := [] }

/-- C9 witness state: goal 1 is linked to account 10 with the full balance
of 500 reserved. -/
def c9_db : DB :=
  { users := [1],
    accounts := [{ id := 10, user_id := 1, available_balance := some 500 }],
    goals := [{ id := 1, user_id := 1, title := "A", description := none,
                target_amount := 1000, current_amount := 0, deadline := none,
                category := none, status := "active", linked_account_id := some 10,
                linked_amount := some 500 }],
    nextGoalId := 2 }

/-- C4 witness goal: 0/100, no linked account. -/
def c4_goal : Goal :=
  { id := 1, user_id := 1, title := "g", description := none, target_amount := 100,
    current_amount := 0, deadline := none, category := none, status := "active",
    linked_account_id := none, linked_amount := none }

/-- C4 witness state. -/
def c4_db : DB := { users := [1], accounts := [], goals := [c4_goal], nextGoalId := 2 }

/-- The claimed data-model invariant: a present `linked_amount` implies a
present `linked_account_id`. -/
def Goal.linkInv (g : Goal) : Prop := g.linked_amount.isSome → g.linked_account_id.isSome

/-- C2 state: user 1, no accounts, no goals. -/
def c2_db : DB := { users := [1], accounts := [], goals := [], nextGoalId := 1 }

/-- C2 payload: `linked_amount = 100` with no `linked_account_id`. -/
def c2_pay : CreatePayload :=
  { title := some "G", target_amount := some 200, description := none,
    deadline := .dnone, category := none, linked_account_id := .jnull,
    linked_amount := .jnum 100, status := none, current_amount := none }

/-- The goal `c2_pay` creates: `linked_amount` present, account `None`. -/
def c2_goal : Goal :=
  { id := 1, user_id := 1, title := "G", description := none, target_amount := 200,
    current_amount := 0, deadline := none, category := none, status := "active",
    linked_account_id := none, linked_amount := some 100 }

/-- C2 state after the creation. -/
def c2_db1 : DB := { c2_db with goals := [c2_goal], nextGoalId := 2 }

/-- C2 witness state: user 1 with account 10 (balance 500). -/
def c2w_db : DB :=
  { users := [1],
    accounts := [{ id := 10, user_id := 1, available_balance := some 500 }],
    goals := [], nextGoalId := 1 }

/-- C2 witness payload: both linked fields supplied. -/
def c2w_pay : CreatePayload :=
  { title := some "W", target_amount := some 200, description := none,
    deadline := .dnone, category := none, linked_account_id := .jnum 10,
    linked_amount := .jnum 100, status := none, current_amount := none }

/-- C2 witness: the gating update payload placeholder (unused branch). -/
def c2w_u : UpdatePayload :=
  { title := none, description := none, target_amount := none, deadline := none,
    category := none, status := none, linked_account_id := none,
    linked_amount := none, extra := [] }

/-- C2 witness goal: what `c2w_pay` creates. -/
def c2w_goal : Goal :=
  { id := 1, user_id := 1, title := "W", description := none, target_amount := 200,
    current_amount := 0, deadline := none, category := none, status := "active",
    linked_account_id := some 10, linked_amount := some 100 }

/-- C3 state: no accounts exist at all. -/
def c3_db : DB := { users := [1], accounts := [], goals := [], nextGoalId := 1 }

/-- C3 payload: sets `linked_amount = 100` with no `linked_account_id`. -/
def c3_pay : CreatePayload :=
  { title := some "G", target_amount := some 200, description := none,
    deadline := .dnone, category := none, linked_account_id := .jnull,
    linked_amount := .jnum 100, status := none, current_amount := none }

/-- The goal `c3_pay` commits. -/
def c3_goal : Goal :=
  { id := 1, user_id := 1, title := "G", description := none, target_amount := 200,
    current_amount := 0, deadline := none, category := none, status := "active",
    linked_account_id := none, linked_amount := some 100 }

/-- C3 state after the creation. -/
def c3_db1 : DB := { c3_db with goals := [c3_goal], nextGoalId := 2 }

/-- C3 witness state: user 1, account 10 with balance 500. -/
def c3w_db : DB :=
  { users := [1],
    accounts := [{ id := 10, user_id := 1, available_balance := some 500 }],
    goals := [], nextGoalId := 1 }

/-- C3 witness payload: both linked fields supplied. -/
def c3w_pay : CreatePayload :=
  { title := some "W", target_amount := some 200, description := none,
    deadline := .dnone, category := none, linked_account_id := .jnum 10,
    linked_amount := .jnum 100, status := none, current_amount := none }

/-- C3 witness goal. -/
def c3w_goal : Goal :=
  { id := 1, user_id := 1, title := "W", description := none, target_amount := 200,
    current_amount := 0, deadline := none, category := none, status := "active",
    linked_account_id := some 10, linked_amount := some 100 }

/-- C3 witness: the placeholder update payload for the unused branch. -/
def c3w_u : UpdatePayload :=
  { title := none, description := none, target_amount := none, deadline := none,
    category := none, status := none, linked_account_id := none,
    linked_amount := none, extra := [] }

/-! ### Theorems -/

theorem Goal.truthy_linked_total (g : Goal) :
    (g.current_amount +
      (match g.linked_amount with
       | none => 0
       | some la => if la = 0 then 0 else la)) = g.total_progress := by
  unfold Goal.total_progress
  cases g.linked_amount with
  | none => simp
  | some la => by_cases hla : la = 0 <;> simp [hla]

theorem Goal.calculate_progress_eq (g : Goal) (h : g.target_amount ≠ 0) :
    g.calculate_progress = min (g.total_progress / g.target_amount * 100) 100 := by
  simp only [Goal.calculate_progress]
  rw [if_neg h, Goal.truthy_linked_total]

theorem Goal.calculate_progress_le_100 (g : Goal) : g.calculate_progress ≤ 100 := by
  by_cases h : g.target_amount = 0
  · simp only [Goal.calculate_progress]
    rw [if_pos h]
    norm_num
  · rw [Goal.calculate_progress_eq g h]
    exact min_le_right _ _

theorem Goal.completion_iff (g : Goal) (h : 0 < g.target_amount) :
    (100 ≤ g.calculate_progress) ↔ g.target_amount ≤ g.total_progress := by
  rw [Goal.calculate_progress_eq g h.ne', le_min_iff]
  simp only [le_refl, and_true]
  rw [div_mul_eq_mul_div, le_div_iff h]
  constructor
  · intro hx; linarith
  · intro hx; linarith

theorem Goal.update_progress_target (g : Goal) (a : ℚ) (t : String) :
    (g.update_progress a t).target_amount = g.target_amount := by
  simp only [Goal.update_progress]
  split <;> split <;> rfl

theorem Goal.update_progress_total (g : Goal) (a : ℚ) (t : String) :
    (g.update_progress a t).total_progress = g.total_progress + a := by
  simp only [Goal.update_progress]
  by_cases ht : t = "linked"
  · simp only [ht, if_true]
    split <;> (simp only [Goal.total_progress, Option.getD_some]; ring)
  · simp only [ht, if_false]
    split <;> (simp only [Goal.total_progress]; ring)

theorem Goal.update_progress_status (g : Goal) (a : ℚ) (t : String)
    (htarget : 0 < g.target_amount) :
    (g.update_progress a t).status =
      if g.target_amount ≤ g.total_progress + a then "completed" else g.status := by
  simp only [Goal.update_progress]
  set g1 := (if t = "linked" then
      { g with linked_amount := some (g.linked_amount.getD 0 + a) }
    else { g with current_amount := g.current_amount + a }) with hg1
  have h1 : g1.target_amount = g.target_amount := by rw [hg1]; split <;> rfl
  have h2 : g1.total_progress = g.total_progress + a := by
    rw [hg1]
    split <;> (simp only [Goal.total_progress, Option.getD_some]; ring)
  have h3 : g1.status = g.status := by rw [hg1]; split <;> rfl
  have hiff : (100 ≤ g1.calculate_progress) ↔ (g.target_amount ≤ g.total_progress + a) := by
    rw [Goal.completion_iff g1 (by rw [h1]; exact htarget), h1, h2]
  by_cases hc : g.target_amount ≤ g.total_progress + a
  · rw [if_pos hc, if_pos (hiff.mpr hc)]
  · rw [if_neg hc, if_neg (fun hx => hc (hiff.mp hx))]
    exact h3

theorem Goal.calculate_progress_mono (g : Goal) (a : ℚ) (t : String)
    (htarget : 0 < g.target_amount) (ha : 0 ≤ a) :
    g.calculate_progress ≤ (g.update_progress a t).calculate_progress := by
  have h1 := Goal.update_progress_target g a t
  have h2 := Goal.update_progress_total g a t
  rw [Goal.calculate_progress_eq g htarget.ne',
      Goal.calculate_progress_eq _ (by rw [h1]; exact htarget.ne'), h1, h2]
  refine min_le_min ?_ le_rfl
  refine mul_le_mul_of_nonneg_right ?_ (by norm_num)
  exact (div_le_div_right htarget).mpr (by linarith)

theorem Goal.calculate_progress_foldl (g : Goal) (steps : List (ℚ × String))
    (htarget : 0 < g.target_amount) (hpos : ∀ s ∈ steps, 0 ≤ s.1) :
    g.calculate_progress ≤
      (steps.foldl (fun gg s => gg.update_progress s.1 s.2) g).calculate_progress := by
  induction steps generalizing g with
  | nil => simp
  | cons s ss ih =>
    simp only [List.foldl_cons]
    refine le_trans (Goal.calculate_progress_mono g s.1 s.2 htarget (hpos s (by simp))) ?_
    refine ih _ ?_ ?_
    · rw [Goal.update_progress_target]; exact htarget
    · intro x hx; exact hpos x (by simp [hx])

/-- C5: after any progress application the status is set to `completed`
exactly when `total_progress = current_amount + (linked_amount or 0)`
reaches `target_amount`; a progress application never moves the status to
`cancelled`, and never reverts `completed` back to `active`. -/
theorem c5_status_completed_exactly (g : Goal) (amount : ℚ) (progress_type : String)
    (htarget : 0 < g.target_amount) :
    ((g.update_progress amount progress_type).status =
       if g.target_amount ≤ g.total_progress + amount then "completed" else g.status) ∧
    (g.status = "completed" → (g.update_progress amount progress_type).status = "completed") ∧
    ((g.update_progress amount progress_type).status = "cancelled" →
       g.status = "cancelled") := by
  have hs := Goal.update_progress_status g amount progress_type htarget
  refine ⟨hs, ?_, ?_⟩
  · intro hpre
    rw [hs]
    by_cases hc : g.target_amount ≤ g.total_progress + amount
    · rw [if_pos hc]
    · rw [if_neg hc]; exact hpre
  · intro hpost
    rw [hs] at hpost
    by_cases hc : g.target_amount ≤ g.total_progress + amount
    · rw [if_pos hc] at hpost; exact absurd hpost (by decide)
    · rw [if_neg hc] at hpost; exact hpost

/-- C5 witness: a goal at 40/100 receiving a manual contribution of 60 is
marked `completed`, and one receiving 59 stays `active`. -/
theorem c5_status_completed_exactly_witness :
    (0:ℚ) < 100 ∧
    (({ id := 1, user_id := 1, title := "t", description := none,
        target_amount := 100, current_amount := 40, deadline := none,
        category := none, status := "active", linked_account_id := none,
        linked_amount := none } : Goal).update_progress 60 "manual").status
      = "completed" := by
  refine ⟨by decide, ?_⟩
  rw [(c5_status_completed_exactly
    { id := 1, user_id := 1, title := "t", description := none,
      target_amount := 100, current_amount := 40, deadline := none,
      category := none, status := "active", linked_account_id := none,
      linked_amount := none } 60 "manual" (by decide)).1]
  with_unfolding_all rfl

/-- C7: `progress_percentage` equals
`min(100, (current_amount + (linked_amount or 0)) / target_amount * 100)`,
is capped at 100, and is non-decreasing across any sequence of successful
additive progress calls (positive amounts, target fixed). -/
theorem c7_progress_percentage_capped_monotone (g : Goal) (steps : List (ℚ × String))
    (htarget : 0 < g.target_amount) (hpos : ∀ s ∈ steps, 0 < s.1) :
    g.calculate_progress = min 100 (g.total_progress / g.target_amount * 100) ∧
    g.calculate_progress ≤ 100 ∧
    g.calculate_progress ≤
      (steps.foldl (fun gg s => gg.update_progress s.1 s.2) g).calculate_progress := by
  refine ⟨?_, Goal.calculate_progress_le_100 g, ?_⟩
  · rw [Goal.calculate_progress_eq g htarget.ne', min_comm]
  · exact Goal.calculate_progress_foldl g steps htarget
      (fun s hs => le_of_lt (hpos s hs))

/-- C7 witness: a goal at 40/100 stays below its own percentage after a
manual 30 followed by a linked 50. -/
theorem c7_progress_percentage_capped_monotone_witness :
    (0:ℚ) < 100 ∧ (∀ s ∈ [((30:ℚ), "manual"), ((50:ℚ), "linked")], 0 < s.1) ∧
    ({ id := 1, user_id := 1, title := "t", description := none,
       target_amount := 100, current_amount := 40, deadline := none,
       category := none, status := "active", linked_account_id := none,
       linked_amount := none } : Goal).calculate_progress ≤
      ([((30:ℚ), "manual"), ((50:ℚ), "linked")].foldl
        (fun gg s => gg.update_progress s.1 s.2 : Goal → ℚ × String → Goal)
        { id := 1, user_id := 1, title := "t", description := none,
          target_amount := 100, current_amount := 40, deadline := none,
          category := none, status := "active", linked_account_id := none,
          linked_amount := none }).calculate_progress :=
  ⟨by decide, by decide,
    (c7_progress_percentage_capped_monotone
      { id := 1, user_id := 1, title := "t", description := none,
        target_amount := 100, current_amount := 40, deadline := none,
        category := none, status := "active", linked_account_id := none,
        linked_amount := none }
      [((30:ℚ), "manual"), ((50:ℚ), "linked")] (by decide) (by decide)).2.2⟩

/-- C1: for an account the user owns, the reservation-ledger check succeeds
iff `total_reserved + proposed ≤ available_balance` (so reserving exactly the
full balance succeeds), and raises `ValidationError` carrying the available
balance and the already-reserved total iff `total_reserved + proposed >
available_balance`; in the 500-balance scenario goal A (`linked_amount=500`)
is created and goal B (`linked_amount=100`) is rejected with `600 > 500`. -/
theorem c1_reservation_ledger_check (db : DB) (user_id account_id : Int) (lam : ℚ)
    (excl : Option Int) (account : Account)
    (hacct : AccountRepository.get_by_id_and_user_id db account_id user_id = some account) :
    (GoalFacade.validate_linked_amount_total db user_id account_id lam excl = .ok () ↔
       GoalFacade.total_reserved db user_id account_id excl + lam
         ≤ account.available_balance.getD 0) ∧
    (GoalFacade.validate_linked_amount_total db user_id account_id lam excl =
        .error (.validation (.cannotReserve (account.available_balance.getD 0)
          (GoalFacade.total_reserved db user_id account_id excl))) ↔
       account.available_balance.getD 0 <
         GoalFacade.total_reserved db user_id account_id excl + lam) ∧
    GoalFacade.create_goal c1_db0 0 1 c1_payA = .ok (c1_db1, c1_goalA) ∧
    GoalFacade.create_goal c1_db1 0 1 c1_payB =
      .error (.validation (.cannotReserve 500 500)) := by
  have hv : GoalFacade.validate_linked_amount_total db user_id account_id lam excl =
      if account.available_balance.getD 0 <
           GoalFacade.total_reserved db user_id account_id excl + lam then
        .error (.validation (.cannotReserve (account.available_balance.getD 0)
          (GoalFacade.total_reserved db user_id account_id excl)))
      else .ok () := by
    simp only [GoalFacade.validate_linked_amount_total]
    rw [hacct]
  refine ⟨?_, ?_, ?_, ?_⟩
  · rw [hv]
    by_cases hlt : account.available_balance.getD 0 <
        GoalFacade.total_reserved db user_id account_id excl + lam
    · rw [if_pos hlt]
      constructor
      · intro hx; exact absurd hx (by simp)
      · intro hx; exact absurd hlt (not_lt.mpr hx)
    · rw [if_neg hlt]
      constructor
      · intro _; exact not_lt.mp hlt
      · intro _; rfl
  · rw [hv]
    by_cases hlt : account.available_balance.getD 0 <
        GoalFacade.total_reserved db user_id account_id excl + lam
    · rw [if_pos hlt]
      exact ⟨fun _ => hlt, fun _ => rfl⟩
    · rw [if_neg hlt]
      constructor
      · intro hx; exact absurd hx (by simp)
      · intro hx; exact absurd hx hlt
  · with_unfolding_all rfl
  · with_unfolding_all rfl

/-- C1 witness: on the post-A state, checking a further reservation of 100
on account 10 yields exactly the `600 > 500` validation error. -/
theorem c1_reservation_ledger_check_witness :
    AccountRepository.get_by_id_and_user_id c1_db1 10 1 = some c1_account ∧
    GoalFacade.validate_linked_amount_total c1_db1 1 10 100 none =
      .error (.validation (.cannotReserve 500 500)) := by
  refine ⟨by with_unfolding_all rfl, ?_⟩
  have h := (c1_reservation_ledger_check c1_db1 1 10 100 none c1_account
    (by with_unfolding_all rfl)).2.1
  have hres : GoalFacade.total_reserved c1_db1 1 10 none = 500 := by
    with_unfolding_all rfl
  have havail : c1_account.available_balance.getD 0 = 500 := by rfl
  rw [hres, havail] at h
  exact h.mpr (by with_unfolding_all decide)

/-- C10: every goal accepted by `create_goal` is created with
`status = 'active'` and `current_amount = 0`, and whatever `status` or
`current_amount` the caller put in the payload is ignored: replacing those
payload fields by anything yields the identical result. -/
theorem c10_create_ignores_status_and_current (db : DB) (today user_id : Int)
    (p : CreatePayload) (db' : DB) (g : Goal)
    (hok : GoalFacade.create_goal db today user_id p = .ok (db', g)) :
    g.status = "active" ∧ g.current_amount = 0 ∧
    ∀ s c, GoalFacade.create_goal db today user_id
        { p with status := s, current_amount := c } = .ok (db', g) := by
  have hignore : ∀ s c, GoalFacade.create_goal db today user_id
      { p with status := s, current_amount := c } =
      GoalFacade.create_goal db today user_id p := by
    intro s c
    cases p
    rfl
  have hshape : g.status = "active" ∧ g.current_amount = 0 := by
    simp only [GoalFacade.create_goal] at hok
    repeat'
      first
        | exact Except.noConfusion hok
        | split at hok
    all_goals
      injection hok with h
      rw [Prod.mk.injEq] at h
      obtain ⟨_, h2⟩ := h
      subst h2
      exact ⟨rfl, rfl⟩
  exact ⟨hshape.1, hshape.2, fun s c => (hignore s c).trans hok⟩

/-- C10 witness: a creation payload smuggling `status='completed'` and
`current_amount=77` still yields an `active` goal at 0. -/
theorem c10_create_ignores_status_and_current_witness :
    GoalFacade.create_goal
        { users := [1], accounts := [], goals := [], nextGoalId := 1 } 0 1
        { title := some "T", target_amount := some 50, description := none,
          deadline := .dnone, category := none, linked_account_id := .jnull,
          linked_amount := .jnull, status := some "completed",
          current_amount := some 77 } =
      .ok ({ users := [1], accounts := [],
             goals := [{ id := 1, user_id := 1, title := "T", description := none,
                         target_amount := 50, current_amount := 0, deadline := none,
                         category := none, status := "active",
                         linked_account_id := none, linked_amount := none }],
             nextGoalId := 2 },
           { id := 1, user_id := 1, title := "T", description := none,
             target_amount := 50, current_amount := 0, deadline := none,
             category := none, status := "active", linked_account_id := none,
             linked_amount := none }) ∧
    ({ id := 1, user_id := 1, title := "T", description := none,
       target_amount := 50, current_amount := 0, deadline := none,
       category := none, status := "active", linked_account_id := none,
       linked_amount := none } : Goal).status = "active" := by
  have hok : GoalFacade.create_goal
      { users := [1], accounts := [], goals := [], nextGoalId := 1 } 0 1
      { title := some "T", target_amount := some 50, description := none,
        deadline := .dnone, category := none, linked_account_id := .jnull,
        linked_amount := .jnull, status := some "completed",
        current_amount := some 77 } =
      .ok ({ users := [1], accounts := [],
             goals := [{ id := 1, user_id := 1, title := "T", description := none,
                         target_amount := 50, current_amount := 0, deadline := none,
                         category := none, status := "active",
                         linked_account_id := none, linked_amount := none }],
             nextGoalId := 2 },
           { id := 1, user_id := 1, title := "T", description := none,
             target_amount := 50, current_amount := 0, deadline := none,
             category := none, status := "active", linked_account_id := none,
             linked_amount := none }) := by with_unfolding_all rfl
  exact ⟨hok, (c10_create_ignores_status_and_current _ _ _ _ _ _ hok).1⟩

/-- C8: `get_goals_near_deadline` rejects every `days` outside `[1, 30]`
with `ValidationError`, and for `days` in range returns exactly the user's
`active` goals whose deadline lies in `[today, today + days]`, in ascending
deadline order. -/
theorem c8_near_deadline_query (db : DB) (today user_id days : Int)
    (huser : db.users.contains user_id = true) :
    ((days < 1 ∨ 30 < days) →
       GoalFacade.get_goals_near_deadline db today user_id days =
         .error (.validation .daysRange)) ∧
    (1 ≤ days → days ≤ 30 →
       ∃ l, GoalFacade.get_goals_near_deadline db today user_id days = .ok l ∧
         l.Perm (db.goals.filter (Goal.near_deadline today user_id days)) ∧
         l.Sorted deadlineLE ∧
         ∀ g ∈ l, g.user_id = user_id ∧ g.status = "active" ∧
           ∃ d, g.deadline = some d ∧ today ≤ d ∧ d ≤ today + days) := by
  constructor
  · intro hrange
    simp only [GoalFacade.get_goals_near_deadline]
    rw [if_pos huser, if_pos hrange]
  · intro h1 h30
    have hrange : ¬(days < 1 ∨ days > 30) := by
      push_neg
      exact ⟨h1, h30⟩
    simp only [GoalFacade.get_goals_near_deadline]
    rw [if_pos huser, if_neg hrange]
    refine ⟨_, rfl, ?_, ?_, ?_⟩
    · simp only [GoalRepository.get_goals_near_deadline]
      exact List.perm_insertionSort _ _
    · simp only [GoalRepository.get_goals_near_deadline]
      exact List.sorted_insertionSort _ _
    · intro g hg
      have hmem : g ∈ db.goals.filter (Goal.near_deadline today user_id days) := by
        simp only [GoalRepository.get_goals_near_deadline] at hg
        exact (List.perm_insertionSort _ _).mem_iff.mp hg
      obtain ⟨hgoals, hpred⟩ := List.mem_filter.mp hmem
      cases hd : g.deadline with
      | none => simp [Goal.near_deadline, hd] at hpred
      | some d =>
        simp only [Goal.near_deadline, hd, Bool.and_eq_true, beq_iff_eq,
          decide_eq_true_eq] at hpred
        obtain ⟨⟨hu, hs⟩, hd1, hd2⟩ := hpred
        exact ⟨hu, hs, d, rfl, hd1, hd2⟩

/-- C8 witness: `days = 0` and `days = 31` are rejected; `days = 7` yields
a sorted permutation of the active in-range goals. -/
theorem c8_near_deadline_query_witness :
    GoalFacade.get_goals_near_deadline c8_db 0 1 0 = .error (.validation .daysRange) ∧
    GoalFacade.get_goals_near_deadline c8_db 0 1 31 = .error (.validation .daysRange) ∧
    ∃ l, GoalFacade.get_goals_near_deadline c8_db 0 1 7 = .ok l ∧
      l.Perm (c8_db.goals.filter (Goal.near_deadline 0 1 7)) ∧
      l.Sorted deadlineLE ∧
      ∀ g ∈ l, g.user_id = 1 ∧ g.status = "active" ∧
        ∃ d, g.deadline = some d ∧ 0 ≤ d ∧ d ≤ 0 + 7 :=
  ⟨(c8_near_deadline_query c8_db 0 1 0 (by decide)).1 (by decide),
   (c8_near_deadline_query c8_db 0 1 31 (by decide)).1 (by decide),
   (c8_near_deadline_query c8_db 0 1 7 (by decide)).2 (by decide) (by decide)⟩

/-- C6 counterexample: updating or deleting an absent goal does NOT raise
`NotFoundError` — the facade's bare `except` wraps the repository's
`GoalNotFoundError` into a `GoalValidationError`, refuting the claim that
get-by-id, update and delete alike raise `NotFoundError`. -/
theorem c6_counterexample :
    GoalFacade.update_goal c6_db 0 7 1 c6_emptyU =
      .error (.validation (.errorUpdatingGoal (.goalNotFound 7))) ∧
    isNotFoundError (GoalFacade.update_goal c6_db 0 7 1 c6_emptyU) = false ∧
    GoalFacade.delete_goal c6_db 7 1 =
      .error (.validation (.errorDeletingGoal (.goalNotFound 7))) ∧
    isNotFoundError (GoalFacade.delete_goal c6_db 7 1) = false := by
  refine ⟨?_, ?_, ?_, ?_⟩ <;> with_unfolding_all rfl

/-- C6 amended: when the goal is absent for the requesting user (either no
such id, or the id belongs to another user — the lookup filters on both, so
the two cases are indistinguishable), `get_goal_by_id` raises
`GoalNotFoundError` with the id, while `update_goal` and `delete_goal`
raise `GoalValidationError` wrapping the same not-found message; all three
errors depend only on the requested id. -/
theorem c6_absent_goal_errors (db : DB) (today goal_id user_id : Int)
    (u : UpdatePayload) (claid : Option (Option Int)) (clam : Option (Option ℚ))
    (dres : Option (Option Int))
    (huser : db.users.contains user_id = true)
    (habsent : GoalRepository.get_goal_by_id db goal_id user_id = none)
    (hextra : u.extra.find? (fun f => !(GoalFacade.VALID_FIELDS.contains f)) = none)
    (hstatus : (match u.status with
        | some s => !(GoalFacade.VALID_STATUSES.contains s)
        | none => false) = false)
    (htarget : (match u.target_amount with
        | some t => decide (t ≤ 0)
        | none => false) = false)
    (hdl : GoalFacade.parse_deadline_update today u.deadline = .ok dres)
    (hstage : GoalFacade.update_linked_stage db goal_id user_id u = .ok (claid, clam)) :
    GoalFacade.get_goal_by_id db goal_id user_id =
      .error (.notFound (.goalNotFound goal_id)) ∧
    GoalFacade.update_goal db today goal_id user_id u =
      .error (.validation (.errorUpdatingGoal (.goalNotFound goal_id))) ∧
    GoalFacade.delete_goal db goal_id user_id =
      .error (.validation (.errorDeletingGoal (.goalNotFound goal_id))) := by
  refine ⟨?_, ?_, ?_⟩
  · simp only [GoalFacade.get_goal_by_id, huser, habsent, if_true]
  · simp only [GoalFacade.update_goal, huser, hextra, hstatus, htarget, hdl, hstage,
      if_true, Bool.false_eq_true, if_false]
    simp only [GoalFacade.commit_update, GoalRepository.update_goal, habsent,
      GoalError.msg]
  · simp only [GoalFacade.delete_goal, huser, if_true]
    simp only [GoalRepository.delete_goal, habsent, GoalError.msg]

/-- C6 witness: requesting goal 7 as user 1 while it belongs to user 2
yields exactly the three errors of the amended statement. -/
theorem c6_absent_goal_errors_witness :
    GoalFacade.get_goal_by_id c6_db2 7 1 = .error (.notFound (.goalNotFound 7)) ∧
    GoalFacade.update_goal c6_db2 0 7 1 c6_emptyU =
      .error (.validation (.errorUpdatingGoal (.goalNotFound 7))) ∧
    GoalFacade.delete_goal c6_db2 7 1 =
      .error (.validation (.errorDeletingGoal (.goalNotFound 7))) :=
  c6_absent_goal_errors c6_db2 0 7 1 c6_emptyU none none none
    (by decide) (by with_unfolding_all rfl) (by rfl) (by rfl) (by rfl)
    (by rfl) (by with_unfolding_all rfl)

/-- C9: an update whose dict contains `linked_amount` (here a number `q`)
but no `linked_account_id` key writes back `linked_account_id = None` —
silently clearing any previously linked account — stores `q` as the new
`linked_amount`, and skips the reservation-ledger check: the update
succeeds for every state `db` (in particular whatever the account balances
are) and every `q`. -/
theorem c9_update_clears_linked_account (db : DB) (today goal_id user_id : Int)
    (u : UpdatePayload) (g : Goal) (q : ℚ) (dres : Option (Option Int))
    (huser : db.users.contains user_id = true)
    (hextra : u.extra.find? (fun f => !(GoalFacade.VALID_FIELDS.contains f)) = none)
    (hstatus : (match u.status with
        | some s => !(GoalFacade.VALID_STATUSES.contains s)
        | none => false) = false)
    (htarget : (match u.target_amount with
        | some t => decide (t ≤ 0)
        | none => false) = false)
    (hdl : GoalFacade.parse_deadline_update today u.deadline = .ok dres)
    (hlaid : u.linked_account_id = none)
    (hlam : u.linked_amount = some (.jnum q))
    (hfind : GoalRepository.get_goal_by_id db goal_id user_id = some g) :
    ∃ db' g', GoalFacade.update_goal db today goal_id user_id u = .ok (db', g') ∧
      g'.linked_account_id = none ∧ g'.linked_amount = some q := by
  have hstage : GoalFacade.update_linked_stage db goal_id user_id u =
      .ok (some none, some (some q)) := by
    simp only [GoalFacade.update_linked_stage, hlaid, hlam]
    rfl
  simp only [GoalFacade.update_goal, huser, hextra, hstatus, htarget, hdl, hstage,
    if_true, Bool.false_eq_true, if_false]
  simp only [GoalFacade.commit_update, GoalRepository.update_goal, hfind]
  exact ⟨_, _, rfl, rfl, rfl⟩

/-- C9 witness: sending `{linked_amount: 9999}` alone clears the stored
account link and stores 9999 — far beyond every balance — without error. -/
theorem c9_update_clears_linked_account_witness :
    ∃ db' g', GoalFacade.update_goal c9_db 0 1 1
        { title := none, description := none, target_amount := none,
          deadline := none, category := none, status := none,
          linked_account_id := none, linked_amount := some (.jnum 9999),
          extra := [] } = .ok (db', g') ∧
      g'.linked_account_id = none ∧ g'.linked_amount = some 9999 :=
  c9_update_clears_linked_account c9_db 0 1 1
    { title := none, description := none, target_amount := none,
      deadline := none, category := none, status := none,
      linked_account_id := none, linked_amount := some (.jnum 9999), extra := [] }
    { id := 1, user_id := 1, title := "A", description := none,
      target_amount := 1000, current_amount := 0, deadline := none,
      category := none, status := "active", linked_account_id := some 10,
      linked_amount := some 500 }
    9999 none (by decide) (by rfl) (by rfl) (by rfl) (by rfl) (by rfl) (by rfl)
    (by with_unfolding_all rfl)

theorem Goal.update_progress_manual_fields (g : Goal) (a : ℚ) (t : String)
    (ht : t ≠ "linked") :
    (g.update_progress a t).current_amount = g.current_amount + a ∧
    (g.update_progress a t).linked_amount = g.linked_amount := by
  simp only [Goal.update_progress]
  rw [if_neg ht]
  constructor <;> (split <;> rfl)

theorem Goal.update_progress_linked_fields (g : Goal) (a : ℚ) :
    (g.update_progress a "linked").linked_amount = some (g.linked_amount.getD 0 + a) ∧
    (g.update_progress a "linked").current_amount = g.current_amount := by
  simp only [Goal.update_progress, if_true]
  constructor <;> (split <;> rfl)

/-- C4: progress application.  `amount ≤ 0` raises `ValidationError` before
any lookup or mutation, as does a `progress_type` outside
`{manual, linked}`.  A `manual` contribution adds exactly `amount` to
`current_amount` and leaves `linked_amount` untouched.  A `linked`
contribution requires a truthy linked account and the reservation check on
`(linked_amount or 0) + amount` (excluding this goal); on success it adds
exactly `amount` to `linked_amount` and leaves `current_amount` untouched,
and on a missing account or failing check it raises the corresponding
error with the state untouched (an error result carries no new state). -/
theorem c4_apply_progress (db : DB) (goal_id user_id : Int) (amount : ℚ)
    (progress_type : String)
    (huser : db.users.contains user_id = true) :
    (amount ≤ 0 →
       GoalFacade.update_goal_progress db goal_id user_id amount progress_type =
         .error (.validation .amountPositive)) ∧
    (0 < amount → progress_type ≠ "manual" → progress_type ≠ "linked" →
       GoalFacade.update_goal_progress db goal_id user_id amount progress_type =
         .error (.validation .invalidProgressType)) ∧
    (∀ g, 0 < amount → GoalRepository.get_goal_by_id db goal_id user_id = some g →
       GoalFacade.update_goal_progress db goal_id user_id amount "manual" =
         .ok (db.replaceGoal (g.update_progress amount "manual"),
              g.update_progress amount "manual") ∧
       (g.update_progress amount "manual").current_amount = g.current_amount + amount ∧
       (g.update_progress amount "manual").linked_amount = g.linked_amount) ∧
    (∀ g acct, 0 < amount → GoalRepository.get_goal_by_id db goal_id user_id = some g →
       g.linked_account_id = some acct → acct ≠ 0 →
       GoalFacade.validate_linked_amount_total db user_id acct
           ((g.linked_amount.getD 0) + amount) (some goal_id) = .ok () →
       GoalFacade.update_goal_progress db goal_id user_id amount "linked" =
         .ok (db.replaceGoal (g.update_progress amount "linked"),
              g.update_progress amount "linked") ∧
       (g.update_progress amount "linked").linked_amount =
         some ((g.linked_amount.getD 0) + amount) ∧
       (g.update_progress amount "linked").current_amount = g.current_amount) ∧
    (∀ g, 0 < amount → GoalRepository.get_goal_by_id db goal_id user_id = some g →
       (g.linked_account_id = none ∨ g.linked_account_id = some 0) →
       GoalFacade.update_goal_progress db goal_id user_id amount "linked" =
         .error (.validation .goalNoLinkedAccount)) ∧
    (∀ g acct e, 0 < amount →
       GoalRepository.get_goal_by_id db goal_id user_id = some g →
       g.linked_account_id = some acct → acct ≠ 0 →
       GoalFacade.validate_linked_amount_total db user_id acct
           ((g.linked_amount.getD 0) + amount) (some goal_id) = .error e →
       GoalFacade.update_goal_progress db goal_id user_id amount "linked" =
         .error e) := by
  refine ⟨?_, ?_, ?_, ?_, ?_, ?_⟩
  · intro hle
    simp only [GoalFacade.update_goal_progress]
    rw [if_pos huser, if_pos hle]
  · intro hpos hm hl
    simp only [GoalFacade.update_goal_progress]
    rw [if_pos huser, if_neg (not_le.mpr hpos)]
    have hc : (!(["manual", "linked"].contains progress_type)) = true := by
      simp [hm, hl]
    rw [if_pos hc]
  · intro g hpos hfind
    have hred : GoalFacade.update_goal_progress db goal_id user_id amount "manual" =
        match GoalRepository.update_goal_progress db goal_id user_id amount "manual" with
        | .error e => .error (.validation (.errorUpdatingProgress e.msg))
        | .ok r => .ok r := by
      simp only [GoalFacade.update_goal_progress]
      rw [if_pos huser, if_neg (not_le.mpr hpos),
        if_neg (by decide : ¬(!(["manual", "linked"].contains ("manual" : String))) = true),
        if_neg (by decide : ¬(("manual" : String) = "linked"))]
    refine ⟨?_, (Goal.update_progress_manual_fields g amount "manual" (by decide)).1,
      (Goal.update_progress_manual_fields g amount "manual" (by decide)).2⟩
    rw [hred]
    simp only [GoalRepository.update_goal_progress, hfind]
  · intro g acct hpos hfind hacct hacct0 hcheck
    have hred : GoalFacade.update_goal_progress db goal_id user_id amount "linked" =
        match GoalRepository.update_goal_progress db goal_id user_id amount "linked" with
        | .error e => .error (.validation (.errorUpdatingProgress e.msg))
        | .ok r => .ok r := by
      simp only [GoalFacade.update_goal_progress, if_true]
      rw [if_pos huser, if_neg (not_le.mpr hpos),
        if_neg (by decide : ¬(!(["manual", "linked"].contains ("linked" : String))) = true)]
      simp only [hfind, hacct, if_neg hacct0, hcheck]
    refine ⟨?_, (Goal.update_progress_linked_fields g amount).1,
      (Goal.update_progress_linked_fields g amount).2⟩
    rw [hred]
    simp only [GoalRepository.update_goal_progress, hfind]
  · intro g hpos hfind hnoacct
    simp only [GoalFacade.update_goal_progress, if_true]
    rw [if_pos huser, if_neg (not_le.mpr hpos),
      if_neg (by decide : ¬(!(["manual", "linked"].contains ("linked" : String))) = true)]
    rcases hnoacct with h | h
    · simp only [hfind, h]
    · simp only [hfind, h, if_true]
  · intro g acct e hpos hfind hacct hacct0 hcheck
    simp only [GoalFacade.update_goal_progress, if_true]
    rw [if_pos huser, if_neg (not_le.mpr hpos),
      if_neg (by decide : ¬(!(["manual", "linked"].contains ("linked" : String))) = true)]
    simp only [hfind, hacct, if_neg hacct0, hcheck]

/-- C4 witness: a manual contribution of 60 to the 0/100 goal commits and
adds exactly 60 to `current_amount`. -/
theorem c4_apply_progress_witness :
    (0:ℚ) < 60 ∧
    GoalFacade.update_goal_progress c4_db 1 1 60 "manual" =
      .ok (c4_db.replaceGoal (c4_goal.update_progress 60 "manual"),
           c4_goal.update_progress 60 "manual") ∧
    (c4_goal.update_progress 60 "manual").current_amount =
      c4_goal.current_amount + 60 := by
  have h := (c4_apply_progress c4_db 1 1 60 "manual" (by decide)).2.2.1 c4_goal
    (by decide) (by with_unfolding_all rfl)
  exact ⟨by decide, h.1, h.2.1⟩

theorem Goal.update_progress_account_id (g : Goal) (a : ℚ) (t : String) :
    (g.update_progress a t).linked_account_id = g.linked_account_id := by
  simp only [Goal.update_progress]
  split <;> split <;> rfl

/-- C2 counterexample: `create_goal` accepts a payload with `linked_amount`
but no `linked_account_id` and persists a goal violating the claimed
implication, so the implication is not an invariant preserved by every
create/update. -/
theorem c2_counterexample :
    GoalFacade.create_goal c2_db 0 1 c2_pay = .ok (c2_db1, c2_goal) ∧
    c2_goal.linked_amount = some 100 ∧ c2_goal.linked_account_id = none ∧
    ¬ c2_goal.linkInv :=
  ⟨by with_unfolding_all rfl, rfl, rfl, by intro h; simpa [c2_goal] using h rfl⟩

theorem GoalFacade.update_linked_stage_shape (db : DB) (goal_id user_id : Int)
    (u : UpdatePayload) (claid : Option (Option Int)) (clam : Option (Option ℚ))
    (h : GoalFacade.update_linked_stage db goal_id user_id u = .ok (claid, clam)) :
    (claid = none ∧ clam = none) ∨ ∃ l m, claid = some l ∧ clam = some m := by
  simp only [GoalFacade.update_linked_stage] at h
  split at h
  · repeat'
      first
        | exact Except.noConfusion h
        | split at h
    all_goals
      injection h with h'
      rw [Prod.mk.injEq] at h'
      obtain ⟨h1, h2⟩ := h'
      exact Or.inr ⟨_, _, h1.symm, h2.symm⟩
  · injection h with h'
    rw [Prod.mk.injEq] at h'
    obtain ⟨h1, h2⟩ := h'
    exact Or.inl ⟨h1.symm, h2.symm⟩

/-- C2 amended: the implication `linked_amount present ⇒ linked_account_id
present` is not enforced unconditionally (see the counterexample); it is
established by creates whose coerced payload satisfies it, preserved by
updates whose linked stage writes back fields satisfying it (or touches
neither), and preserved by every progress application. -/
theorem c2_link_implication_conditional (db : DB) (today goal_id user_id : Int)
    (p : CreatePayload) (u : UpdatePayload) (amount : ℚ) (progress_type : String) :
    (∀ laid lam db' g,
       GoalFacade.validate_and_convert_linked_fields p.linked_account_id p.linked_amount
         = .ok (laid, lam) →
       (lam.isSome → laid.isSome) →
       GoalFacade.create_goal db today user_id p = .ok (db', g) → g.linkInv) ∧
    (∀ claid clam db' g' g,
       GoalFacade.update_linked_stage db goal_id user_id u = .ok (claid, clam) →
       (∀ l m, claid = some l → clam = some m → (m.isSome → l.isSome)) →
       GoalRepository.get_goal_by_id db goal_id user_id = some g → g.linkInv →
       GoalFacade.update_goal db today goal_id user_id u = .ok (db', g') →
       g'.linkInv) ∧
    (∀ db' g' g,
       GoalRepository.get_goal_by_id db goal_id user_id = some g → g.linkInv →
       GoalFacade.update_goal_progress db goal_id user_id amount progress_type
         = .ok (db', g') → g'.linkInv) := by
  refine ⟨?_, ?_, ?_⟩
  · intro laid lam db' g hconv himp hok
    simp only [GoalFacade.create_goal, hconv] at hok
    repeat'
      first
        | exact Except.noConfusion hok
        | split at hok
    all_goals
      injection hok with h
      rw [Prod.mk.injEq] at h
      obtain ⟨_, h2⟩ := h
      subst h2
      exact himp
  · intro claid clam db' g' g hstage himp hfind hpre hok
    simp only [GoalFacade.update_goal, hstage] at hok
    repeat'
      first
        | exact Except.noConfusion hok
        | split at hok
    all_goals
      simp only [GoalFacade.commit_update, GoalRepository.update_goal, hfind] at hok
      injection hok with h
      rw [Prod.mk.injEq] at h
      obtain ⟨_, h2⟩ := h
      subst h2
      rcases GoalFacade.update_linked_stage_shape db goal_id user_id u claid clam hstage
        with ⟨hl, hm⟩ | ⟨l, m, hl, hm⟩
      · subst hl; subst hm
        exact hpre
      · subst hl; subst hm
        exact himp l m rfl rfl
  · intro db' g' g hfind hpre hok
    by_cases hu : user_id ∈ db.users
    case neg => simp [GoalFacade.update_goal_progress, hu] at hok
    by_cases hamt : amount ≤ 0
    case pos => simp [GoalFacade.update_goal_progress, hu, hamt] at hok
    by_cases hpt : progress_type = "linked"
    · subst hpt
      cases hacct : g.linked_account_id with
      | none =>
        simp [GoalFacade.update_goal_progress, hu, hamt, hfind, hacct] at hok
      | some acct =>
        by_cases hz : acct = 0
        · simp [GoalFacade.update_goal_progress, hu, hamt, hfind, hacct, hz] at hok
        · cases hcheck : GoalFacade.validate_linked_amount_total db user_id acct
              (g.linked_amount.getD 0 + amount) (some goal_id) with
          | error e =>
            simp [GoalFacade.update_goal_progress, hu, hamt, hfind, hacct, hz,
              hcheck] at hok
          | ok v =>
            cases v
            simp [GoalFacade.update_goal_progress, GoalRepository.update_goal_progress,
              hu, hamt, hfind, hacct, hz, hcheck] at hok
            obtain ⟨_, h2⟩ := hok
            subst h2
            intro _
            rw [Goal.update_progress_account_id, hacct]
            rfl
    · by_cases hm : progress_type = "manual"
      · subst hm
        simp [GoalFacade.update_goal_progress, GoalRepository.update_goal_progress,
          hu, hamt, hfind] at hok
        obtain ⟨_, h2⟩ := hok
        subst h2
        intro hs
        rw [Goal.update_progress_account_id]
        rw [(Goal.update_progress_manual_fields g amount "manual" (by decide)).2] at hs
        exact hpre hs
      · simp [GoalFacade.update_goal_progress, hu, hamt, hm, hpt] at hok

/-- C2 witness: a create supplying both linked fields satisfies the
implication on its result. -/
theorem c2_link_implication_conditional_witness :
    GoalFacade.validate_and_convert_linked_fields (.jnum 10) (.jnum 100) =
      .ok (some 10, some 100) ∧
    GoalFacade.create_goal c2w_db 0 1 c2w_pay =
      .ok ({ c2w_db with goals := [c2w_goal], nextGoalId := 2 }, c2w_goal) ∧
    c2w_goal.linkInv := by
  refine ⟨by with_unfolding_all rfl, by with_unfolding_all rfl, ?_⟩
  exact (c2_link_implication_conditional c2w_db 0 0 1 c2w_pay c2w_u 1 "manual").1
    (some 10) (some 100) { c2w_db with goals := [c2w_goal], nextGoalId := 2 } c2w_goal
    (by with_unfolding_all rfl) (fun _ => rfl) (by with_unfolding_all rfl)

/-- C3 counterexample: in a state with no accounts whatsoever — where every
possible reservation-ledger check fails with `linkedAccountNotFound` — a
create whose payload sets `linked_amount` (but no account id) still commits
`linked_amount = 100`; so not every create that sets `linked_amount` runs
the check.  (`validate_linked_amount_total` on any id, e.g. 10, errors.) -/
theorem c3_counterexample :
    c3_db.accounts = [] ∧
    GoalFacade.validate_linked_amount_total c3_db 1 10 100 none =
      .error (.validation .linkedAccountNotFound) ∧
    GoalFacade.create_goal c3_db 0 1 c3_pay = .ok (c3_db1, c3_goal) ∧
    c3_goal.linked_amount = some 100 :=
  ⟨rfl, by with_unfolding_all rfl, by with_unfolding_all rfl, rfl⟩

/-- C3 amended: the reservation check gates every linked commit whose
coerced payload carries a truthy `linked_account_id` together with a
non-null `linked_amount` (create and update), and every linked-type
progress contribution, each time recomputed from the current state; but a
payload that sets `linked_amount` without a truthy account id commits it
with no check (see the counterexample). -/
theorem c3_check_gates_linked_writes (db : DB) (today goal_id user_id : Int)
    (p : CreatePayload) (u : UpdatePayload) (amount : ℚ) :
    (∀ a m db' g,
       GoalFacade.validate_and_convert_linked_fields p.linked_account_id p.linked_amount
         = .ok (some a, some m) → a ≠ 0 →
       GoalFacade.create_goal db today user_id p = .ok (db', g) →
       GoalFacade.validate_linked_amount_total db user_id a m none = .ok ()) ∧
    (∀ a m db' g,
       GoalFacade.validate_and_convert_linked_fields (u.linked_account_id.getD .jnull)
           (u.linked_amount.getD .jnull) = .ok (some a, some m) → a ≠ 0 →
       GoalFacade.update_goal db today goal_id user_id u = .ok (db', g) →
       GoalFacade.validate_linked_amount_total db user_id a m (some goal_id) = .ok ()) ∧
    (∀ g db' g',
       GoalRepository.get_goal_by_id db goal_id user_id = some g →
       GoalFacade.update_goal_progress db goal_id user_id amount "linked" =
         .ok (db', g') →
       ∃ acct, g.linked_account_id = some acct ∧ acct ≠ 0 ∧
         GoalFacade.validate_linked_amount_total db user_id acct
           ((g.linked_amount.getD 0) + amount) (some goal_id) = .ok ()) := by
  refine ⟨?_, ?_, ?_⟩
  · intro a m db' g hconv ha hok
    cases hcheck : GoalFacade.validate_linked_amount_total db user_id a m none with
    | ok v => cases v; rfl
    | error e =>
      exfalso
      simp only [GoalFacade.create_goal, hconv] at hok
      rw [if_pos ha, hcheck] at hok
      repeat'
        first
          | exact Except.noConfusion hok
          | split at hok
  · intro a m db' g hconv ha hok
    by_cases hp : (u.linked_account_id.isSome || u.linked_amount.isSome) = true
    · cases hcheck : GoalFacade.validate_linked_amount_total db user_id a m
          (some goal_id) with
      | ok v => cases v; rfl
      | error e =>
        exfalso
        simp only [GoalFacade.update_goal, GoalFacade.update_linked_stage, hp, if_true,
          hconv] at hok
        rw [if_pos ha, hcheck] at hok
        repeat'
          first
            | exact Except.noConfusion hok
            | split at hok
    · exfalso
      simp only [Bool.or_eq_true, not_or, Bool.not_eq_true] at hp
      obtain ⟨h1, h2⟩ := hp
      have h1' : u.linked_account_id = none := by
        cases hx : u.linked_account_id with
        | none => rfl
        | some x => rw [hx] at h1; simp at h1
      have h2' : u.linked_amount = none := by
        cases hx : u.linked_amount with
        | none => rfl
        | some x => rw [hx] at h2; simp at h2
      rw [h1', h2'] at hconv
      simp [GoalFacade.validate_and_convert_linked_fields,
        GoalFacade.to_linked_account_id, GoalFacade.to_linked_amount] at hconv
  · intro g db' g' hfind hok
    by_cases hu : user_id ∈ db.users
    case neg => simp [GoalFacade.update_goal_progress, hu] at hok
    by_cases hamt : amount ≤ 0
    case pos => simp [GoalFacade.update_goal_progress, hu, hamt] at hok
    cases hacct : g.linked_account_id with
    | none => simp [GoalFacade.update_goal_progress, hu, hamt, hfind, hacct] at hok
    | some acct =>
      by_cases hz : acct = 0
      · simp [GoalFacade.update_goal_progress, hu, hamt, hfind, hacct, hz] at hok
      · cases hcheck : GoalFacade.validate_linked_amount_total db user_id acct
            (g.linked_amount.getD 0 + amount) (some goal_id) with
        | error e =>
          simp [GoalFacade.update_goal_progress, hu, hamt, hfind, hacct, hz,
            hcheck] at hok
        | ok v =>
          cases v
          exact ⟨acct, rfl, hz, hcheck⟩

/-- C3 witness: on a successful create carrying a truthy account id and an
amount, the reservation check did pass. -/
theorem c3_check_gates_linked_writes_witness :
    GoalFacade.validate_and_convert_linked_fields (.jnum 10) (.jnum 100) =
      .ok (some 10, some 100) ∧
    GoalFacade.create_goal c3w_db 0 1 c3w_pay =
      .ok ({ c3w_db with goals := [c3w_goal], nextGoalId := 2 }, c3w_goal) ∧
    GoalFacade.validate_linked_amount_total c3w_db 1 10 100 none = .ok () := by
  refine ⟨by with_unfolding_all rfl, by with_unfolding_all rfl, ?_⟩
  exact (c3_check_gates_linked_writes c3w_db 0 0 1 c3w_pay c3w_u 1).1 10 100
    { c3w_db with goals := [c3w_goal], nextGoalId := 2 } c3w_goal
    (by with_unfolding_all rfl) (by decide) (by with_unfolding_all rfl)
